import Mathlib

/-!
Verification of the crawling-and-extraction subsystem of the scrapper
repository (lab_5_scrapper/scrapper.py and lab_6_pipeline/pipeline.py).

The Python code is shallowly embedded: JSON-like configuration values become
an inductive `JValue` (with Python's convention that `bool` is a subclass of
`int`), fallible code returns `Except`, and the HTTP layer is an oracle
function from URLs to already-parsed page models.
-/

set_option autoImplicit false

/-- A JSON-like value, as loaded from the configuration document.
Python type tests (`isinstance`) are modelled on the constructors; note that
in Python `isinstance(True, int)` holds, which is mirrored by `pyIsInt`. -/
inductive JValue where
  | jnull
  | jbool (b : Bool)
  | jint (n : Int)
  | jstr (s : String)
  | jlist (xs : List JValue)
  | jdict (entries : List (String × JValue))

/-- `isinstance(v, int)` in Python: true for `int` and for `bool`. -/
def JValue.pyIsInt : JValue → Bool
  | .jint _ => true
  | .jbool _ => true
  | _ => false

/-- `isinstance(v, bool)` in Python. -/
def JValue.isBool : JValue → Bool
  | .jbool _ => true
  | _ => false

/-- `isinstance(v, dict)` in Python. -/
def JValue.isDict : JValue → Bool
  | .jdict _ => true
  | _ => false

/-- `isinstance(v, str)` in Python. -/
def JValue.isStr : JValue → Bool
  | .jstr _ => true
  | _ => false

/-- The numeric value of a Python `int` (with `True = 1`, `False = 0`);
junk value `0` for non-integers, only read under a `pyIsInt` guard. -/
def JValue.pyIntVal : JValue → Int
  | .jint n => n
  | .jbool b => if b then 1 else 0
  | _ => 0

/-- The exception kinds raised by `Config._validate_config_content`
(scrapper.py lines 21-60), plus Python's built-in `TypeError`, which
`re.match` raises when handed a non-string seed element. -/
inductive ScrapperError where
  | incorrectSeedURLError
  | numberOfArticlesOutOfRangeError
  | incorrectNumberOfArticlesError
  | incorrectHeadersError
  | incorrectEncodingError
  | incorrectTimeoutError
  | incorrectVerifyError
  | pyTypeError
deriving DecidableEq, Repr

/-- Character-list prefix test, used to embed both `re.match` with a literal
pattern and glob suffix matching structurally (so that the kernel can
evaluate them, unlike `String.startsWith`). -/
def charsPrefix : List Char → List Char → Bool
  | [], _ => true
  | _ :: _, [] => false
  | p :: ps, c :: cs => p = c && charsPrefix ps cs

/-- `re.match(r"https://", s)`: the pattern is a literal, so the match
succeeds exactly when `s` starts with `"https://"`. -/
def re_match_https (s : String) : Bool :=
  charsPrefix "https://".toList s.toList

/-- `all(re.match(r"https://", seed_url) for seed_url in conf['seed_urls'])`
(scrapper.py line 114): short-circuits at the first non-matching string and
raises `TypeError` if a non-string element is reached first. -/
def all_seeds_match : List JValue → Except ScrapperError Bool
  | [] => .ok true
  | .jstr s :: rest =>
      if re_match_https s then all_seeds_match rest else .ok false
  | _ :: _ => .error .pyTypeError

/-- Seed-URL check of `Config._validate_config_content` (scrapper.py
lines 113-118): `isinstance(conf['seed_urls'], list) and all(re.match(...))`,
else `IncorrectSeedURLError`. -/
def validate_seed_urls (v : JValue) : Except ScrapperError Unit :=
  match v with
  | .jlist xs =>
      match all_seeds_match xs with
      | .error e => .error e
      | .ok true => .ok ()
      | .ok false => .error .incorrectSeedURLError
  | _ => .error .incorrectSeedURLError

/-- Article-count check of `Config._validate_config_content` (scrapper.py
lines 120-124): `not isinstance(num, int) or num < 0 or isinstance(num, bool)`
raises `IncorrectNumberOfArticlesError`; then `num > 150 or num < 1` raises
`NumberOfArticlesOutOfRangeError`. -/
def validate_num_articles (v : JValue) : Except ScrapperError Unit :=
  if v.pyIsInt = false ∨ v.pyIntVal < 0 ∨ v.isBool = true then
    .error .incorrectNumberOfArticlesError
  else if 150 < v.pyIntVal ∨ v.pyIntVal < 1 then
    .error .numberOfArticlesOutOfRangeError
  else
    .ok ()

/-- Headers check (scrapper.py lines 126-127). -/
def validate_headers (v : JValue) : Except ScrapperError Unit :=
  if v.isDict = true then .ok () else .error .incorrectHeadersError

/-- Encoding check (scrapper.py lines 129-130). -/
def validate_encoding (v : JValue) : Except ScrapperError Unit :=
  if v.isStr = true then .ok () else .error .incorrectEncodingError

/-- Boolean-flags check (scrapper.py lines 132-134). -/
def validate_verify (verify headless : JValue) : Except ScrapperError Unit :=
  if verify.isBool = false ∨ headless.isBool = false then
    .error .incorrectVerifyError
  else
    .ok ()

/-- Timeout check (scrapper.py lines 136-138):
`not isinstance(conf['timeout'], int) or conf['timeout'] >= 60 or conf['timeout'] <= 0`. -/
def validate_timeout (v : JValue) : Except ScrapperError Unit :=
  if v.pyIsInt = false ∨ 60 ≤ v.pyIntVal ∨ v.pyIntVal ≤ 0 then
    .error .incorrectTimeoutError
  else
    .ok ()

/-- The configuration document: the values found at the seven required keys. -/
structure ConfDoc where
  seed_urls : JValue
  total_articles_to_find_and_parse : JValue
  headers : JValue
  encoding : JValue
  timeout : JValue
  should_verify_certificate : JValue
  headless_mode : JValue

/-- `Config._validate_config_content` (scrapper.py lines 106-138): the field
checks in source order; the first failing check raises. -/
def validate_config_content (c : ConfDoc) : Except ScrapperError Unit := do
  validate_seed_urls c.seed_urls
  validate_num_articles c.total_articles_to_find_and_parse
  validate_headers c.headers
  validate_encoding c.encoding
  validate_verify c.should_verify_certificate c.headless_mode
  validate_timeout c.timeout

/-- A configuration document in which every field is valid. -/
def baseDoc : ConfDoc where
  seed_urls := .jlist [.jstr "https://example.org/news?page=0"]
  total_articles_to_find_and_parse := .jint 10
  headers := .jdict []
  encoding := .jstr "utf-8"
  timeout := .jint 30
  should_verify_certificate := .jbool true
  headless_mode := .jbool false

/-- `baseDoc` with the article count replaced. -/
def docWithCount (v : JValue) : ConfDoc :=
  { baseDoc with total_articles_to_find_and_parse := v }

/-- `baseDoc` with the seed-URL field replaced. -/
def docWithSeeds (v : JValue) : ConfDoc :=
  { baseDoc with seed_urls := v }

/-- `baseDoc` with the timeout replaced. -/
def docWithTimeout (v : JValue) : ConfDoc :=
  { baseDoc with timeout := v }

theorem all_seeds_match_map_jstr (ss : List String) :
    all_seeds_match (ss.map .jstr) = .ok (ss.all re_match_https) := by
  induction ss with
  | nil => rfl
  | cons s rest ih =>
      by_cases h : re_match_https s = true
      · simp [all_seeds_match, h, ih]
      · simp only [Bool.not_eq_true] at h
        simp [all_seeds_match, h]

/-- C1 counterexample: for total article count `0`, validation raises
`NumberOfArticlesOutOfRangeError`, not `IncorrectNumberOfArticlesError` as the
claim states (with every other field valid). -/
theorem c1_counterexample :
    validate_config_content (docWithCount (.jint 0)) =
      .error .numberOfArticlesOutOfRangeError ∧
    validate_config_content (docWithCount (.jint 0)) ≠
      .error .incorrectNumberOfArticlesError :=
  ⟨rfl, fun h => nomatch Except.error.inj h⟩

/-- C1 (amended): count `0` raises `NumberOfArticlesOutOfRangeError`; counts
`1` and `150` validate; `151` raises `NumberOfArticlesOutOfRangeError`; and in
general an integer count raises `IncorrectNumberOfArticlesError` exactly for
negative values, `NumberOfArticlesOutOfRangeError` exactly outside `[1, 150]`. -/
theorem c1_amended :
    validate_config_content (docWithCount (.jint 0)) =
      .error .numberOfArticlesOutOfRangeError ∧
    validate_config_content (docWithCount (.jint 1)) = .ok () ∧
    validate_config_content (docWithCount (.jint 150)) = .ok () ∧
    validate_config_content (docWithCount (.jint 151)) =
      .error .numberOfArticlesOutOfRangeError ∧
    (∀ n : Int, validate_num_articles (.jint n) =
      (if n < 0 then .error .incorrectNumberOfArticlesError
       else if 150 < n ∨ n < 1 then .error .numberOfArticlesOutOfRangeError
       else .ok ())) := by
  refine ⟨rfl, rfl, rfl, rfl, fun n => ?_⟩
  by_cases h1 : n < 0
  · simp [validate_num_articles, JValue.pyIsInt, JValue.pyIntVal, JValue.isBool, h1]
  · by_cases h2 : 150 < n ∨ n < 1 <;>
      simp [validate_num_articles, JValue.pyIsInt, JValue.pyIntVal, JValue.isBool, h1, h2]

/-- C2 counterexample: the claim says an empty seed-URL sequence must fail
with `IncorrectSeedURLError`, but validation of a document with
`seed_urls = []` (and all other fields valid) succeeds: `all` of an empty
sequence is vacuously true. -/
theorem c2_counterexample :
    validate_config_content (docWithSeeds (.jlist [])) = .ok () := rfl

/-- C2 (amended): validation fails with `IncorrectSeedURLError` when the
seed-URL field is not a list, and, for a list of strings, exactly when some
element does not start with `"https://"`; the empty list passes. -/
theorem c2_amended :
    validate_config_content (docWithSeeds (.jlist [])) = .ok () ∧
    (∀ v : JValue,
      (∃ xs, v = .jlist xs) ∨
        validate_seed_urls v = .error .incorrectSeedURLError) ∧
    (∀ ss : List String,
      validate_seed_urls (.jlist (ss.map .jstr)) =
          .error .incorrectSeedURLError ↔
        ∃ s ∈ ss, re_match_https s = false) := by
  refine ⟨rfl, fun v => ?_, fun ss => ?_⟩
  · cases v with
    | jlist xs => exact Or.inl ⟨xs, rfl⟩
    | jnull => exact Or.inr rfl
    | jbool b => exact Or.inr rfl
    | jint n => exact Or.inr rfl
    | jstr s => exact Or.inr rfl
    | jdict entries => exact Or.inr rfl
  · rcases hb : ss.all re_match_https with _ | _
    · have hex := hb
      simp only [List.all_eq_false, Bool.not_eq_true] at hex
      simp [validate_seed_urls, all_seeds_match_map_jstr, hb]
      simpa using hex
    · simp only [List.all_eq_true] at hb
      simp [validate_seed_urls, all_seeds_match_map_jstr, List.all_eq_true.mpr hb]
      intro s hs
      exact hb s hs

/-- C6: timeout `0` raises `IncorrectTimeoutError`, `1` and `59` validate,
`60` raises `IncorrectTimeoutError`; in general the timeout check succeeds
exactly when the value is a Python integer strictly between 0 and 60, and
raises `IncorrectTimeoutError` exactly otherwise. -/
theorem c6_timeout_boundary :
    validate_config_content (docWithTimeout (.jint 0)) =
      .error .incorrectTimeoutError ∧
    validate_config_content (docWithTimeout (.jint 1)) = .ok () ∧
    validate_config_content (docWithTimeout (.jint 59)) = .ok () ∧
    validate_config_content (docWithTimeout (.jint 60)) =
      .error .incorrectTimeoutError ∧
    (∀ v : JValue,
      (validate_timeout v = .ok () ↔
        v.pyIsInt = true ∧ 0 < v.pyIntVal ∧ v.pyIntVal < 60) ∧
      (validate_timeout v = .error .incorrectTimeoutError ↔
        ¬(v.pyIsInt = true ∧ 0 < v.pyIntVal ∧ v.pyIntVal < 60))) := by
  refine ⟨rfl, rfl, rfl, rfl, fun v => ?_⟩
  rcases hb : v.pyIsInt with _ | _
  · constructor
    · simp [validate_timeout, hb]
    · simp [validate_timeout, hb]
  · by_cases h1 : (60 : Int) ≤ v.pyIntVal
    · constructor
      · simp [validate_timeout, hb, h1]
      · simp [validate_timeout, hb, h1]
    · by_cases h2 : v.pyIntVal ≤ 0
      · constructor
        · simp [validate_timeout, hb, h1, h2]
        · simp [validate_timeout, hb, h1, h2]
      · constructor
        · simp [validate_timeout, hb, h1, h2]
          omega
        · simp [validate_timeout, hb, h1, h2]

/-- Python exception kinds that crawling and article parsing can raise. -/
inductive PyError where
  | attributeError
  | typeError
  | keyError
  | indexError
  | valueError
deriving DecidableEq, Repr

/-- An `<a>` element as seen by `Crawler._extract_url`: its `hreflang`
attribute, its stripped strings, and its `href` attribute (`link.get('href')`
is Python `None` when the attribute is absent). -/
structure Anchor where
  hreflang : Option String
  texts : List String
  href : Option String

/-- The pagination control `find(class_='pager__item pager__item--last')`
followed by `.find('a')['href']` (scrapper.py lines 306-307), with each way
the chained lookup can fail. -/
inductive Pager where
  | absent
  | anchorMissing
  | hrefMissing
  | href (s : String)

/-- A parsed listing page: the anchors scanned by `_extract_url` and the
pagination control read by `CrawlerRecursive.find_articles`. -/
structure ListingPage where
  anchors : List Anchor
  pager : Pager

/-- The result of `make_request` for a listing URL: `response.ok` plus the
parsed document (`BeautifulSoup(response.text, "html.parser")`). -/
structure ListingResponse where
  ok : Bool
  page : ListingPage

/-- Python string slicing `s[n:]`, by code points. -/
def pyDrop (s : String) (n : Nat) : String := ⟨s.toList.drop n⟩

/-- `url not in self.urls` where `url` may be Python `None`. -/
def url_not_in (u : Option String) (urls : List String) : Bool :=
  match u with
  | none => true
  | some s => decide (s ∉ urls)

/-- The `for link in links` loop of `Crawler._extract_url` (scrapper.py
lines 255-259): `url` starts as `''`; on every anchor whose stripped strings
contain the marker, `url` is set to that anchor's `href`, and the loop breaks
when that `href` is not yet collected. -/
def scan_links (urls : List String) : List Anchor → Option String → Option String
  | [], url => url
  | link :: rest, url =>
      if "Подробнее" ∈ link.texts then
        if url_not_in link.href urls then link.href
        else scan_links urls rest link.href
      else scan_links urls rest url

/-- `Crawler._extract_url` (scrapper.py lines 243-261): scan the anchors with
`hreflang='ru'`, then return `self.url_pattern + url[len('/news'):]`.  When
the loop left `url = None` (a marker anchor without `href`), the slicing
raises `TypeError`. -/
def extract_url (pattern : String) (page : ListingPage) (urls : List String) :
    Except PyError String :=
  match scan_links urls (page.anchors.filter fun a => decide (a.hreflang = some "ru")) (some "") with
  | none => .error .typeError
  | some u => .ok (pattern ++ pyDrop u 5)

/-- The list comprehension `[self._extract_url(article_bs) for i in range(10)]`
(scrapper.py lines 275-276): the same call made `n` times in sequence. -/
def repeat_extract (pattern : String) (page : ListingPage) (urls : List String) :
    Nat → Except PyError (List String)
  | 0 => .ok []
  | n + 1 =>
      match extract_url pattern page urls with
      | .error e => .error e
      | .ok u =>
          match repeat_extract pattern page urls n with
          | .error e => .error e
          | .ok rest => .ok (u :: rest)

/-- The per-page fetch-and-extract loop of `Crawler.find_articles`
(scrapper.py lines 269-277), also used verbatim by
`CrawlerRecursive.find_articles` (lines 312-320).  Pages whose fetch is not
`ok` are skipped.  Returns the final collected-URL state together with the
log of listing URLs fetched, in order. -/
def find_articles (fetch : String → ListingResponse) (pattern : String) :
    List String → List String → Except PyError (List String × List String)
  | [], urls => .ok (urls, [])
  | seed :: rest, urls =>
      let resp := fetch seed
      if resp.ok then
        match repeat_extract pattern resp.page urls 10 with
        | .error e => .error e
        | .ok ten =>
            match find_articles fetch pattern rest (urls ++ ten) with
            | .error e => .error e
            | .ok (final, log) => .ok (final, seed :: log)
      else
        match find_articles fetch pattern rest urls with
        | .error e => .error e
        | .ok (final, log) => .ok (final, seed :: log)

/-- Decimal value of a digit list. -/
def digitsToNat (ds : List Char) : Nat :=
  ds.foldl (fun a c => a * 10 + (c.toNat - 48)) 0

/-- Python `int(s)` restricted to optionally signed decimal literals, which
is all the crawler ever feeds it; any other text raises `ValueError`. -/
def pyIntOfString (s : String) : Option Int :=
  match s.toList with
  | [] => none
  | '-' :: ds =>
      if ds ≠ [] ∧ ds.all Char.isDigit then some (-(digitsToNat ds : Int)) else none
  | ds =>
      if ds ≠ [] ∧ ds.all Char.isDigit then some ((digitsToNat ds : Int)) else none

/-- `int(article_bs.find(class_='pager__item pager__item--last').find('a')['href'])`
(scrapper.py lines 306-307): `AttributeError` when the pager element is
absent, `TypeError` when it has no `<a>`, `KeyError` when the `<a>` has no
`href`, `ValueError` when the text is not an integer literal. -/
def last_page_of : Pager → Except PyError Int
  | .absent => .error .attributeError
  | .anchorMissing => .error .typeError
  | .hrefMissing => .error .keyError
  | .href s =>
      match pyIntOfString s with
      | some n => .ok n
      | none => .error .valueError

/-- The bootstrap of `CrawlerRecursive.find_articles` (scrapper.py
lines 300-310): fetch `start_url`; if the response is ok, read the last-page
index from the pager (any failure propagating), otherwise keep the default
`last_page = 0`; then synthesize one listing URL `f"{start_url}{num}"` per
index `num` in `range(0, last_page)`. -/
def recursive_seed_urls (fetch : String → ListingResponse) (start_url : String) :
    Except PyError (List String) :=
  let resp := fetch start_url
  match (if resp.ok then last_page_of resp.page.pager else .ok 0) with
  | .error e => .error e
  | .ok last_page =>
      .ok ((List.range last_page.toNat).map fun num => start_url ++ toString num)

/-- `CrawlerRecursive.find_articles` (scrapper.py lines 300-320): the
bootstrap above, then the same per-page fetch-and-extract loop as the flat
crawler. -/
def find_articles_recursive (fetch : String → ListingResponse)
    (start_url pattern : String) (urls0 : List String) :
    Except PyError (List String × List String) :=
  match recursive_seed_urls fetch start_url with
  | .error e => .error e
  | .ok seeds => find_articles fetch pattern seeds urls0

theorem repeat_extract_length (pattern : String) (page : ListingPage)
    (urls : List String) :
    ∀ (n : Nat) (l : List String),
      repeat_extract pattern page urls n = .ok l → l.length = n := by
  intro n
  induction n with
  | zero =>
      intro l h
      cases h
      rfl
  | succ k ih =>
      intro l h
      simp only [repeat_extract] at h
      rcases hE : extract_url pattern page urls with e | u <;> rw [hE] at h
      · exact Except.noConfusion h
      · rcases hR : repeat_extract pattern page urls k with e | rest <;> rw [hR] at h
        · exact Except.noConfusion h
        · cases h
          simp [ih rest hR]

theorem repeat_extract_const (pattern : String) (page : ListingPage)
    (urls : List String) (u : String)
    (h : extract_url pattern page urls = .ok u) :
    ∀ n : Nat, repeat_extract pattern page urls n = .ok (List.replicate n u) := by
  intro n
  induction n with
  | zero => rfl
  | succ k ih => simp [repeat_extract, h, ih, List.replicate_succ]

theorem find_articles_log (fetch : String → ListingResponse) (pattern : String) :
    ∀ (seeds urls : List String) (res : List String × List String),
      find_articles fetch pattern seeds urls = .ok res → res.2 = seeds := by
  intro seeds
  induction seeds with
  | nil =>
      intro urls res h
      cases h
      rfl
  | cons s rest ih =>
      intro urls res h
      simp only [find_articles] at h
      cases hok : (fetch s).ok <;> rw [hok] at h <;> simp only [Bool.false_eq_true,
        if_false, if_true] at h
      · rcases hF : find_articles fetch pattern rest urls with e | pr <;> rw [hF] at h
        · exact Except.noConfusion h
        · obtain ⟨final, log⟩ := pr
          cases h
          have := ih urls (final, log) hF
          simp_all
      · rcases hT : repeat_extract pattern (fetch s).page urls 10 with e | ten <;>
          simp only [hT] at h
        · exact Except.noConfusion h
        · rcases hF : find_articles fetch pattern rest (urls ++ ten) with e | pr <;>
            rw [hF] at h
          · exact Except.noConfusion h
          · obtain ⟨final, log⟩ := pr
            cases h
            have := ih (urls ++ ten) (final, log) hF
            simp_all

theorem find_articles_length (fetch : String → ListingResponse) (pattern : String) :
    ∀ (seeds urls : List String) (res : List String × List String),
      find_articles fetch pattern seeds urls = .ok res →
        res.1.length = urls.length + 10 * (seeds.countP fun s => (fetch s).ok) := by
  intro seeds
  induction seeds with
  | nil =>
      intro urls res h
      cases h
      simp
  | cons s rest ih =>
      intro urls res h
      simp only [find_articles] at h
      cases hok : (fetch s).ok <;> rw [hok] at h <;> simp only [Bool.false_eq_true,
        if_false, if_true] at h
      · rcases hF : find_articles fetch pattern rest urls with e | pr <;> rw [hF] at h
        · exact Except.noConfusion h
        · obtain ⟨final, log⟩ := pr
          cases h
          have := ih urls (final, log) hF
          simp_all [List.countP_cons]
      · rcases hT : repeat_extract pattern (fetch s).page urls 10 with e | ten <;>
          simp only [hT] at h
        · exact Except.noConfusion h
        · rcases hF : find_articles fetch pattern rest (urls ++ ten) with e | pr <;>
            rw [hF] at h
          · exact Except.noConfusion h
          · obtain ⟨final, log⟩ := pr
            cases h
            have hlen := ih (urls ++ ten) (final, log) hF
            have hten := repeat_extract_length pattern (fetch s).page urls 10 ten hT
            simp_all [List.countP_cons]
            omega

theorem scan_links_no_marker (urls : List String) :
    ∀ l : List Anchor, (∀ a ∈ l, "Подробнее" ∉ a.texts) →
      ∀ cur : Option String, scan_links urls l cur = cur := by
  intro l
  induction l with
  | nil => intro _ cur; rfl
  | cons a rest ih =>
      intro h cur
      have ha : "Подробнее" ∉ a.texts := h a (by simp)
      simp only [scan_links, if_neg ha]
      exact ih (fun x hx => h x (by simp [hx])) cur

/-- C10: on a successfully fetched listing page that has no anchor carrying
both `hreflang='ru'` and the marker phrase, `_extract_url` returns the base
pattern itself (`url` stays `''` and `pattern + ''[5:] = pattern`), so the
crawler loop appends ten identical copies of the base pattern for the page. -/
theorem c10_no_match_yields_base_pattern :
    (∀ (pattern : String) (page : ListingPage) (urls : List String),
      (∀ a ∈ page.anchors, ¬(a.hreflang = some "ru" ∧ "Подробнее" ∈ a.texts)) →
        extract_url pattern page urls = .ok pattern) ∧
    (∀ (fetch : String → ListingResponse) (pattern seed : String)
        (urls0 : List String),
      (fetch seed).ok = true →
      (∀ a ∈ (fetch seed).page.anchors,
        ¬(a.hreflang = some "ru" ∧ "Подробнее" ∈ a.texts)) →
        find_articles fetch pattern [seed] urls0 =
          .ok (urls0 ++ List.replicate 10 pattern, [seed])) := by
  have main : ∀ (pattern : String) (page : ListingPage) (urls : List String),
      (∀ a ∈ page.anchors, ¬(a.hreflang = some "ru" ∧ "Подробнее" ∈ a.texts)) →
        extract_url pattern page urls = .ok pattern := by
    intro pattern page urls h
    have hfilter : ∀ a ∈ page.anchors.filter (fun a => decide (a.hreflang = some "ru")),
        "Подробнее" ∉ a.texts := by
      intro a ha
      rw [List.mem_filter] at ha
      intro hmem
      exact h a ha.1 ⟨by simpa using ha.2, hmem⟩
    simp only [extract_url, scan_links_no_marker urls _ hfilter (some "")]
    simp [pyDrop]
  refine ⟨main, fun fetch pattern seed urls0 hok h => ?_⟩
  simp only [find_articles, hok, if_true]
  rw [repeat_extract_const pattern (fetch seed).page urls0 pattern (main _ _ _ h) 10]

def c10Fetch : String → ListingResponse := fun _ =>
  { ok := true,
    page := { anchors := [{ hreflang := some "en", texts := ["Подробнее"],
                            href := some "/news/x" }],
              pager := .absent } }

/-- C10 witness: a page whose only marker anchor has `hreflang='en'` yields
the base pattern, and the page contributes ten copies of it. -/
theorem c10_witness :
    extract_url "https://base" (c10Fetch "https://s").page [] = .ok "https://base" ∧
    find_articles c10Fetch "https://base" ["https://s"] [] =
      .ok ([] ++ List.replicate 10 "https://base", ["https://s"]) :=
  ⟨c10_no_match_yields_base_pattern.1 "https://base" (c10Fetch "https://s").page []
      (by decide),
   c10_no_match_yields_base_pattern.2 c10Fetch "https://base" "https://s" [] rfl
      (by decide)⟩

/-- C4: whenever the flat crawler's loop completes, the collected state grew
by exactly ten entries per ok page and zero per non-ok page; an ok page with
a successful extraction appends exactly the ten identical extracted entries,
and a non-ok page appends nothing. -/
theorem c4_ten_urls_per_page :
    (∀ (fetch : String → ListingResponse) (pattern : String)
        (seeds urls0 : List String) (res : List String × List String),
      find_articles fetch pattern seeds urls0 = .ok res →
        res.1.length = urls0.length + 10 * (seeds.countP fun s => (fetch s).ok)) ∧
    (∀ (fetch : String → ListingResponse) (pattern seed : String)
        (urls0 : List String) (u : String),
      (fetch seed).ok = true →
      extract_url pattern (fetch seed).page urls0 = .ok u →
        find_articles fetch pattern [seed] urls0 =
          .ok (urls0 ++ List.replicate 10 u, [seed])) ∧
    (∀ (fetch : String → ListingResponse) (pattern seed : String)
        (urls0 : List String),
      (fetch seed).ok = false →
        find_articles fetch pattern [seed] urls0 = .ok (urls0, [seed])) := by
  refine ⟨fun fetch pattern => find_articles_length fetch pattern, ?_, ?_⟩
  · intro fetch pattern seed urls0 u hok hu
    simp only [find_articles, hok, if_true]
    rw [repeat_extract_const pattern (fetch seed).page urls0 u hu 10]
  · intro fetch pattern seed urls0 hok
    simp [find_articles, hok]

def c4Anchor (path : String) : Anchor :=
  { hreflang := some "ru", texts := ["Подробнее"], href := some path }

def c4Fetch : String → ListingResponse := fun u =>
  if u = "https://site/ok" then
    { ok := true,
      page := { anchors := [c4Anchor "/news/a1", c4Anchor "/news/a2", c4Anchor "/news/a3"],
                pager := .absent } }
  else { ok := false, page := { anchors := [], pager := .absent } }

/-- C4 witness: a page with exactly 3 genuine matching anchors still yields
exactly 10 entries, and a page whose fetch fails yields 0. -/
theorem c4_witness :
    ((([] : List String) ++ List.replicate 10 "https://site/a1").length =
      ([] : List String).length +
        10 * (["https://site/ok"].countP fun s => (c4Fetch s).ok)) ∧
    find_articles c4Fetch "https://site" ["https://site/ok"] [] =
      .ok ([] ++ List.replicate 10 "https://site/a1", ["https://site/ok"]) ∧
    find_articles c4Fetch "https://site" ["https://site/bad"] [] =
      .ok ([], ["https://site/bad"]) :=
  ⟨c4_ten_urls_per_page.1 c4Fetch "https://site" ["https://site/ok"] []
      ([] ++ List.replicate 10 "https://site/a1", ["https://site/ok"]) rfl,
   c4_ten_urls_per_page.2.1 c4Fetch "https://site" "https://site/ok" []
      "https://site/a1" rfl rfl,
   c4_ten_urls_per_page.2.2 c4Fetch "https://site" "https://site/bad" [] rfl⟩

/-- C5: when the bootstrap response is ok and the pager advertises integer
text `s` parsing to `N`, the recursive crawler synthesizes exactly the `N`
listing URLs for page indices `0..N-1`, in ascending index order, and any
completed run fetched exactly that list in that order. -/
theorem c5_paginated_fetches (fetch : String → ListingResponse)
    (start_url pattern : String) (urls0 : List String) (s : String) (N : Nat)
    (hok : (fetch start_url).ok = true)
    (hpager : (fetch start_url).page.pager = .href s)
    (hs : pyIntOfString s = some (N : Int)) :
    recursive_seed_urls fetch start_url =
      .ok ((List.range N).map fun num => start_url ++ toString num) ∧
    ((List.range N).map fun num => start_url ++ toString num).length = N ∧
    ∀ res, find_articles_recursive fetch start_url pattern urls0 = .ok res →
      res.2 = (List.range N).map fun num => start_url ++ toString num := by
  have hseeds : recursive_seed_urls fetch start_url =
      .ok ((List.range N).map fun num => start_url ++ toString num) := by
    simp [recursive_seed_urls, hok, hpager, last_page_of, hs]
  refine ⟨hseeds, by simp, fun res h => ?_⟩
  simp only [find_articles_recursive, hseeds] at h
  exact find_articles_log fetch pattern _ urls0 res h

def c5Fetch : String → ListingResponse := fun u =>
  if u = "https://site/?page=" then
    { ok := true, page := { anchors := [], pager := .href "5" } }
  else { ok := false, page := { anchors := [], pager := .absent } }

/-- C5 witness: a bootstrap page advertising last page 5 makes the recursive
crawler synthesize exactly the five listing URLs for indices 0..4. -/
theorem c5_witness :
    recursive_seed_urls c5Fetch "https://site/?page=" =
      .ok ((List.range 5).map fun num => "https://site/?page=" ++ toString num) ∧
    ((List.range 5).map fun num => "https://site/?page=" ++ toString num).length = 5 :=
  ⟨(c5_paginated_fetches c5Fetch "https://site/?page=" "https://site/" [] "5" 5
      rfl rfl rfl).1,
   (c5_paginated_fetches c5Fetch "https://site/?page=" "https://site/" [] "5" 5
      rfl rfl rfl).2.1⟩

def c3FetchDown : String → ListingResponse :=
  fun _ => { ok := false, page := { anchors := [], pager := .absent } }

/-- C3 counterexample: with a failing bootstrap fetch the recursive crawler
returns normally having fetched zero listing pages and collected nothing;
the run is not fatal and nothing is surfaced to the caller, contradicting
the claim. -/
theorem c3_counterexample :
    find_articles_recursive c3FetchDown "https://site/?page=" "https://site/" [] =
      .ok ([], []) := rfl

/-- C3 (amended): if the bootstrap fetch returns a non-success response, the
recursive crawler silently proceeds with `last_page = 0` and crawls zero
pages (no error surfaced); only when the bootstrap fetch succeeds but the
pagination element is absent does the run fail fatally (`AttributeError`). -/
theorem c3_amended :
    (∀ (fetch : String → ListingResponse) (start_url pattern : String)
        (urls0 : List String),
      (fetch start_url).ok = false →
        find_articles_recursive fetch start_url pattern urls0 = .ok (urls0, [])) ∧
    (∀ (fetch : String → ListingResponse) (start_url pattern : String)
        (urls0 : List String),
      (fetch start_url).ok = true →
      (fetch start_url).page.pager = .absent →
        find_articles_recursive fetch start_url pattern urls0 =
          .error .attributeError) := by
  constructor
  · intro fetch start_url pattern urls0 hok
    simp [find_articles_recursive, recursive_seed_urls, hok, find_articles]
  · intro fetch start_url pattern urls0 hok hpager
    simp [find_articles_recursive, recursive_seed_urls, hok, hpager, last_page_of]

def c3FetchNoPager : String → ListingResponse :=
  fun _ => { ok := true, page := { anchors := [], pager := .absent } }

/-- C3 witness: both amended behaviors at concrete fetch oracles. -/
theorem c3_amended_witness :
    find_articles_recursive c3FetchDown "https://a/?page=" "https://a/" [] =
      .ok ([], []) ∧
    find_articles_recursive c3FetchNoPager "https://a/?page=" "https://a/" [] =
      .error .attributeError :=
  ⟨c3_amended.1 c3FetchDown "https://a/?page=" "https://a/" [] rfl,
   c3_amended.2 c3FetchNoPager "https://a/?page=" "https://a/" [] rfl rfl⟩

/-- A calendar date-time as produced by `datetime.datetime.strptime`. -/
structure Datetime where
  year : Nat
  month : Nat
  day : Nat
  hour : Nat
  minute : Nat
  second : Nat
deriving DecidableEq, Repr

/-- Gregorian leap-year rule, as used by Python's `datetime`. -/
def isLeapYear (y : Nat) : Bool :=
  (y % 4 == 0 && y % 100 != 0) || y % 400 == 0

/-- Length of a month, as validated by Python's `datetime` constructor. -/
def daysInMonth (y m : Nat) : Nat :=
  if m = 2 then (if isLeapYear y then 29 else 28)
  else if m = 4 ∨ m = 6 ∨ m = 9 ∨ m = 11 then 30
  else 31

/-- One numeric field matched by a 1-2 digit run (`%m`, `%d`, `%H`, `%M`,
`%S` in Python's `_strptime` regexes). -/
def parseField2 (cs : List Char) : Option (Nat × List Char) :=
  let ds := cs.takeWhile Char.isDigit
  if ds.length = 1 ∨ ds.length = 2 then
    some (digitsToNat ds, cs.dropWhile Char.isDigit)
  else none

/-- The `%Y` field: exactly four digits. -/
def parseYear4 (cs : List Char) : Option (Nat × List Char) :=
  let ds := cs.takeWhile Char.isDigit
  if ds.length = 4 then some (digitsToNat ds, cs.dropWhile Char.isDigit)
  else none

/-- A literal separator character of the format. -/
def parseChar (c : Char) : List Char → Option (List Char)
  | d :: rest => if d = c then some rest else none
  | [] => none

/-- A whitespace run (`_strptime` translates a space in the format to `\s+`). -/
def parseSpaces : List Char → Option (List Char)
  | c :: rest =>
      if c.isWhitespace then some (rest.dropWhile Char.isWhitespace) else none
  | [] => none

/-- `datetime.datetime.strptime(date_str, '%Y-%m-%d %H:%M:%S')`
(scrapper.py line 394): the whole string must match the fixed format and the
matched numbers must form a valid calendar date-time (`datetime` rejects
month 0 or 13, day 0 or beyond the month length, hour 24, minute or second
60); any mismatch is a `ValueError`. -/
def strptime_Ymd_HMS (s : String) : Option Datetime := do
  let (y, cs) ← parseYear4 s.toList
  let cs ← parseChar '-' cs
  let (mo, cs) ← parseField2 cs
  let cs ← parseChar '-' cs
  let (d, cs) ← parseField2 cs
  let cs ← parseSpaces cs
  let (h, cs) ← parseField2 cs
  let cs ← parseChar ':' cs
  let (mi, cs) ← parseField2 cs
  let cs ← parseChar ':' cs
  let (sec, cs) ← parseField2 cs
  if cs = [] ∧ 1 ≤ y ∧ 1 ≤ mo ∧ mo ≤ 12 ∧ 1 ≤ d ∧ d ≤ daysInMonth y mo ∧
      h ≤ 23 ∧ mi ≤ 59 ∧ sec ≤ 59 then
    some ⟨y, mo, d, h, mi, sec⟩
  else none

/-- `HTMLParser.unify_date_format` (scrapper.py lines 384-394). -/
def unify_date_format (date_str : String) : Option Datetime :=
  strptime_Ymd_HMS date_str

/-- The parsed article document as consumed by the two fill passes: for each
chained lookup, whether the node exists and what its `.string`/attribute
value is (`none` standing for Python `None`). -/
structure ArticlePage where
  headline : Option (Option String)
  paragraphs : List (Option String)
  datePublished : Option (Option String)
  strongs : List (Option String)
  tegiFields : List (List (Option String))

/-- The result of `make_request` for an article URL. -/
structure ArticleResponse where
  ok : Bool
  page : ArticlePage

/-- Modelled from the spec: the `Article` record of `core_utils` (which is
not under src/): "created empty at ArticleExtractor invocation time",
identity = (source URL, integer id), with title, body text, date, author and
topic fields unset until the fill passes run. -/
structure Article where
  url : String
  article_id : Int
  title : Option (Option String) := none
  text : Option String := none
  date : Option Datetime := none
  author : Option (List String) := none
  topics : Option (List (Option String)) := none
deriving DecidableEq, Repr

/-- Python `f'{x}'` where `x` is a string or `None`. -/
def pyFString : Option String → String
  | none => "None"
  | some s => s

/-- `HTMLParser._fill_article_with_text` (scrapper.py lines 342-358):
`AttributeError` if the headline element is absent; paragraphs whose
`.string` is falsy (absent or empty) are skipped; the rest are appended
newline-separated after the headline. -/
def fill_article_with_text (page : ArticlePage) (a : Article) :
    Except PyError Article :=
  match page.headline with
  | none => .error .attributeError
  | some hs =>
      let raw := page.paragraphs.foldl
        (fun acc ps =>
          match ps with
          | none => acc
          | some s => if s = "" then acc else acc ++ "\n" ++ s)
        (pyFString hs)
      .ok { a with text := some raw }

/-- `HTMLParser._fill_article_with_meta_information` (scrapper.py
lines 360-382): title from the headline element (`AttributeError` when the
element is absent); the `datetime` attribute of the `datePublished` element
(`TypeError` when the element is absent, `KeyError` when the attribute is),
parsed by `unify_date_format` (`ValueError` on mismatch, propagated); the
second `<strong>` string as author (`IndexError` when there is no second
one, sentinel `'NOT FOUND'` when its string is falsy); the anchors of the
first tag-classification container as topics (`IndexError` when there is no
such container). -/
def fill_article_with_meta_information (page : ArticlePage) (a : Article) :
    Except PyError Article :=
  match page.headline with
  | none => .error .attributeError
  | some hs =>
      match page.datePublished with
      | none => .error .typeError
      | some attr =>
          match attr with
          | none => .error .keyError
          | some date_str =>
              match unify_date_format date_str with
              | none => .error .valueError
              | some dt =>
                  match page.strongs.get? 1 with
                  | none => .error .indexError
                  | some auth =>
                      let authors :=
                        match auth with
                        | some s => if s = "" then ["NOT FOUND"] else [s]
                        | none => ["NOT FOUND"]
                      match page.tegiFields.get? 0 with
                      | none => .error .indexError
                      | some fld =>
                          .ok { a with title := some hs, date := some dt,
                                        author := some authors,
                                        topics := some fld }

/-- `HTMLParser.parse` (scrapper.py lines 396-409): fetch the article URL;
on an ok response run the body pass then the metadata pass (any exception
propagating); on a non-ok response return the untouched article, which has
only its identity fields set. -/
def parse_article (fetch : String → ArticleResponse) (full_url : String)
    (article_id : Int) : Except PyError Article :=
  let article : Article := { url := full_url, article_id := article_id }
  let response := fetch full_url
  if response.ok then
    match fill_article_with_text response.page article with
    | .error e => .error e
    | .ok a1 =>
        match fill_article_with_meta_information response.page a1 with
        | .error e => .error e
        | .ok a2 => .ok a2
  else
    .ok article

/-- C7: for every article URL whose fetch returns a non-success response,
`parse` returns (rather than raises) an article record in which only the
identity fields (source URL and integer id) are set, while title, body
text, date, author and topics remain unset. -/
theorem c7_fetch_failure_partial_record
    (fetch : String → ArticleResponse) (full_url : String) (article_id : Int)
    (hok : (fetch full_url).ok = false) :
    parse_article fetch full_url article_id =
      .ok { url := full_url, article_id := article_id, title := none,
            text := none, date := none, author := none, topics := none } := by
  simp [parse_article, hok]

def c7Fetch : String → ArticleResponse := fun _ =>
  { ok := false,
    page := { headline := none, paragraphs := [], datePublished := none,
              strongs := [], tegiFields := [] } }

/-- C7 witness: a concrete failing fetch yields the identity-only record. -/
theorem c7_witness :
    parse_article c7Fetch "https://site/news/1" 1 =
      .ok { url := "https://site/news/1", article_id := 1, title := none,
            text := none, date := none, author := none, topics := none } :=
  c7_fetch_failure_partial_record c7Fetch "https://site/news/1" 1 rfl

/-- C8: date parsing uses the fixed strict format `%Y-%m-%d %H:%M:%S`:
`"2023-05-01 12:00:00"` yields the date-time 2023-05-01 12:00:00;
`"May 1, 2023"` does not parse; and for an ok response whose date text does
not parse, `parse` propagates the `ValueError` — no record is returned and
no default date is substituted. -/
theorem c8_strict_date_format :
    unify_date_format "2023-05-01 12:00:00" = some ⟨2023, 5, 1, 12, 0, 0⟩ ∧
    unify_date_format "May 1, 2023" = none ∧
    (∀ (fetch : String → ArticleResponse) (full_url : String)
        (article_id : Int) (hs : Option String) (date_str : String),
      (fetch full_url).ok = true →
      (fetch full_url).page.headline = some hs →
      (fetch full_url).page.datePublished = some (some date_str) →
      unify_date_format date_str = none →
        parse_article fetch full_url article_id = .error .valueError) := by
  refine ⟨rfl, rfl, fun fetch full_url article_id hs date_str hok hh hd hu => ?_⟩
  simp [parse_article, hok, fill_article_with_text, hh,
        fill_article_with_meta_information, hd, hu]

def c8Page : ArticlePage :=
  { headline := some (some "Title"), paragraphs := [some "Body."],
    datePublished := some (some "May 1, 2023"),
    strongs := [some "X", some "Author"], tegiFields := [[some "topic"]] }

def c8Fetch : String → ArticleResponse := fun _ => { ok := true, page := c8Page }

/-- C8 witness: a concrete ok response carrying date text `"May 1, 2023"`
makes `parse` fail with `ValueError`. -/
theorem c8_witness :
    parse_article c8Fetch "https://site/news/2" 2 = .error .valueError :=
  c8_strict_date_format.2.2 c8Fetch "https://site/news/2" 2 (some "Title")
    "May 1, 2023" rfl rfl rfl rfl

/-- A directory entry: file name and size in bytes (`stat().st_size`). -/
structure DirEntry where
  name : String
  size : Nat
deriving DecidableEq, Repr

/-- Suffix test embedding the glob patterns `*_meta.json` / `*_raw.txt`. -/
def matchesGlobSuffix (suffix name : String) : Bool :=
  charsPrefix suffix.toList.reverse name.toList.reverse

/-- `self.path_to_raw_txt_data.glob(pat)` for a suffix pattern, over the
directory listing (pipeline.py lines 67-68). -/
def glob_suffix (suffix : String) (d : List DirEntry) : List DirEntry :=
  d.filter fun e => matchesGlobSuffix suffix e.name

/-- Modelled from the spec: `get_article_id_from_filepath` of `core_utils`
(not under src/) — artifacts are "named by the same zero-padded or plain
integer id", so the embedded id is the leading decimal run of the name. -/
def get_article_id_from_filepath (name : String) : Nat :=
  digitsToNat (name.toList.takeWhile Char.isDigit)

/-- The error kinds of `CorpusManager._validate_dataset` about the listing
itself (pipeline.py lines 18-27; the `FileNotFoundError`/`NotADirectoryError`
cases concern a missing path and are outside the directory-listing model). -/
inductive DatasetError where
  | emptyDirectoryError
  | inconsistentDatasetError
deriving DecidableEq, Repr

/-- `metas.sort(key=lambda x: int(get_article_id_from_filepath(x)))`
(pipeline.py lines 72-73). -/
def sortById (l : List DirEntry) : List DirEntry :=
  l.insertionSort fun a b =>
    get_article_id_from_filepath a.name ≤ get_article_id_from_filepath b.name

/-- The `for index, (meta, raw) in enumerate(zip(metas, raws))` check
(pipeline.py lines 75-79): false at the first pair violating
`index + 1 == id` on either side or having a zero-size artifact. -/
def checkPairs : Nat → List (DirEntry × DirEntry) → Bool
  | _, [] => true
  | index, (meta, raw) :: rest =>
      if index + 1 ≠ get_article_id_from_filepath meta.name ∨
          index + 1 ≠ get_article_id_from_filepath raw.name ∨
          meta.size = 0 ∨ raw.size = 0 then
        false
      else checkPairs (index + 1) rest

/-- `CorpusManager._validate_dataset` (pipeline.py lines 54-79) over the
directory listing: `EmptyDirectoryError` when the listing is empty,
`InconsistentDatasetError` when the glob counts differ or the sorted,
zipped artifact pairs violate the id/size check. -/
def validate_dataset (d : List DirEntry) : Except DatasetError Unit :=
  if d.isEmpty then .error .emptyDirectoryError
  else
    let metas := glob_suffix "_meta.json" d
    let raws := glob_suffix "_raw.txt" d
    if metas.length ≠ raws.length then .error .inconsistentDatasetError
    else if checkPairs 0 ((sortById metas).zip (sortById raws)) then .ok ()
    else .error .inconsistentDatasetError

theorem range'_cons (s n : Nat) :
    List.range' s (n + 1) = s :: List.range' (s + 1) n := rfl

theorem checkPairs_iff :
    ∀ (ps : List (DirEntry × DirEntry)) (i : Nat),
      checkPairs i ps = true ↔
        (ps.map (fun p => get_article_id_from_filepath p.1.name) =
            List.range' (i + 1) ps.length ∧
          ps.map (fun p => get_article_id_from_filepath p.2.name) =
            List.range' (i + 1) ps.length ∧
          ∀ p ∈ ps, 0 < p.1.size ∧ 0 < p.2.size) := by
  intro ps
  induction ps with
  | nil => intro i; simp [checkPairs]
  | cons p rest ih =>
      intro i
      obtain ⟨meta, raw⟩ := p
      by_cases hc : (i + 1 ≠ get_article_id_from_filepath meta.name ∨
          i + 1 ≠ get_article_id_from_filepath raw.name ∨
          meta.size = 0 ∨ raw.size = 0)
      · simp only [checkPairs, if_pos hc, Bool.false_eq_true, false_iff]
        rintro ⟨h1, h2, h3⟩
        simp only [List.map_cons, List.length_cons, range'_cons, List.cons.injEq] at h1 h2
        rw [List.forall_mem_cons] at h3
        obtain ⟨⟨hm, hr⟩, _⟩ := h3
        simp only at hm hr
        rcases hc with hne | hne | hz | hz
        · exact hne h1.1.symm
        · exact hne h2.1.symm
        · omega
        · omega
      · push_neg at hc
        obtain ⟨e1, e2, s1, s2⟩ := hc
        simp only [checkPairs, if_neg (by push_neg; exact ⟨e1, e2, s1, s2⟩ :
          ¬(i + 1 ≠ get_article_id_from_filepath meta.name ∨
            i + 1 ≠ get_article_id_from_filepath raw.name ∨
            meta.size = 0 ∨ raw.size = 0))]
        rw [ih (i + 1)]
        simp only [List.map_cons, List.length_cons, range'_cons, List.cons.injEq,
          List.forall_mem_cons]
        constructor
        · rintro ⟨h1, h2, h3⟩
          exact ⟨⟨e1.symm, h1⟩, ⟨e2.symm, h2⟩,
            ⟨Nat.pos_of_ne_zero s1, Nat.pos_of_ne_zero s2⟩, h3⟩
        · rintro ⟨⟨_, h1⟩, ⟨_, h2⟩, _, h3⟩
          exact ⟨h1, h2, h3⟩

theorem sortById_length (l : List DirEntry) : (sortById l).length = l.length :=
  List.length_insertionSort _ l

theorem mem_sortById (e : DirEntry) (l : List DirEntry) :
    e ∈ sortById l ↔ e ∈ l :=
  (List.perm_insertionSort _ l).mem_iff

theorem zip_sizes_iff :
    ∀ l1 l2 : List DirEntry, l1.length = l2.length →
      ((∀ p ∈ l1.zip l2, 0 < p.1.size ∧ 0 < p.2.size) ↔
        (∀ e ∈ l1, 0 < e.size) ∧ (∀ e ∈ l2, 0 < e.size)) := by
  intro l1
  induction l1 with
  | nil =>
      intro l2 h
      cases l2 with
      | nil => simp
      | cons b t2 => simp at h
  | cons a t ih =>
      intro l2 h
      cases l2 with
      | nil => simp at h
      | cons b t2 =>
          have ht : t.length = t2.length := by simpa using h
          simp only [List.zip_cons_cons, List.forall_mem_cons, ih t2 ht]
          tauto

def c9Mismatch : List DirEntry :=
  [⟨"1_raw.txt", 5⟩, ⟨"2_raw.txt", 5⟩, ⟨"3_raw.txt", 5⟩,
   ⟨"1_meta.json", 5⟩, ⟨"2_meta.json", 5⟩, ⟨"4_meta.json", 5⟩]

def c9Matched : List DirEntry :=
  [⟨"1_raw.txt", 5⟩, ⟨"2_raw.txt", 5⟩, ⟨"3_raw.txt", 5⟩,
   ⟨"1_meta.json", 7⟩, ⟨"2_meta.json", 7⟩, ⟨"3_meta.json", 7⟩]

/-- C9: the dataset check raises `EmptyDirectoryError` exactly when the
directory contains nothing; it passes exactly when the raw and meta glob
counts agree, each sorted id sequence is exactly `1..N`, and no artifact is
zero-length (so any count mismatch, gap, duplicate or empty artifact yields
`InconsistentDatasetError`); raw ids `{1,2,3}` with meta ids `{1,2,4}` are
inconsistent, while matched non-empty `{1,2,3}` pass. -/
theorem c9_dataset_integrity :
    validate_dataset [] = .error .emptyDirectoryError ∧
    validate_dataset c9Mismatch = .error .inconsistentDatasetError ∧
    validate_dataset c9Matched = .ok () ∧
    (∀ d : List DirEntry,
      (validate_dataset d = .error .emptyDirectoryError ↔ d = [])) ∧
    (∀ d : List DirEntry,
      validate_dataset d = .ok () ↔
        d ≠ [] ∧
        (glob_suffix "_meta.json" d).length = (glob_suffix "_raw.txt" d).length ∧
        (sortById (glob_suffix "_meta.json" d)).map
            (fun e => get_article_id_from_filepath e.name) =
          List.range' 1 (glob_suffix "_meta.json" d).length ∧
        (sortById (glob_suffix "_raw.txt" d)).map
            (fun e => get_article_id_from_filepath e.name) =
          List.range' 1 (glob_suffix "_raw.txt" d).length ∧
        (∀ e ∈ glob_suffix "_meta.json" d, 0 < e.size) ∧
        (∀ e ∈ glob_suffix "_raw.txt" d, 0 < e.size)) := by
  refine ⟨rfl, rfl, rfl, fun d => ?_, fun d => ?_⟩
  · by_cases hd : d.isEmpty = true
    · obtain rfl : d = [] := by simpa using hd
      simp [validate_dataset]
    · have hfd : d.isEmpty = false := by simpa using hd
      have hne : d ≠ [] := by
        intro h
        subst h
        simp at hfd
      simp only [validate_dataset, hfd, Bool.false_eq_true, if_false]
      constructor
      · intro h
        exfalso
        split at h
        · exact DatasetError.noConfusion (Except.error.inj h)
        · split at h
          · exact Except.noConfusion h
          · exact DatasetError.noConfusion (Except.error.inj h)
      · intro h
        exact absurd h hne
  · by_cases hd : d.isEmpty = true
    · obtain rfl : d = [] := by simpa using hd
      simp [validate_dataset]
    · have hfd : d.isEmpty = false := by simpa using hd
      have hne : d ≠ [] := by
        intro h
        subst h
        simp at hfd
      by_cases hlen : (glob_suffix "_meta.json" d).length =
          (glob_suffix "_raw.txt" d).length
      · have hslen : (sortById (glob_suffix "_meta.json" d)).length =
            (sortById (glob_suffix "_raw.txt" d)).length := by
          rw [sortById_length, sortById_length, hlen]
        have hiff : checkPairs 0
              ((sortById (glob_suffix "_meta.json" d)).zip
                (sortById (glob_suffix "_raw.txt" d))) = true ↔
            ((sortById (glob_suffix "_meta.json" d)).map
                (fun e => get_article_id_from_filepath e.name) =
              List.range' 1 (glob_suffix "_meta.json" d).length ∧
            (sortById (glob_suffix "_raw.txt" d)).map
                (fun e => get_article_id_from_filepath e.name) =
              List.range' 1 (glob_suffix "_raw.txt" d).length ∧
            (∀ e ∈ glob_suffix "_meta.json" d, 0 < e.size) ∧
            (∀ e ∈ glob_suffix "_raw.txt" d, 0 < e.size)) := by
          rw [checkPairs_iff]
          have hzlen : ((sortById (glob_suffix "_meta.json" d)).zip
              (sortById (glob_suffix "_raw.txt" d))).length =
              (glob_suffix "_meta.json" d).length := by
            rw [List.length_zip, sortById_length, sortById_length, ← hlen, min_self]
          rw [hzlen]
          have hmapf : ((sortById (glob_suffix "_meta.json" d)).zip
                (sortById (glob_suffix "_raw.txt" d))).map
                  (fun p => get_article_id_from_filepath p.1.name) =
              (sortById (glob_suffix "_meta.json" d)).map
                (fun e => get_article_id_from_filepath e.name) := by
            rw [show (fun p : DirEntry × DirEntry =>
                get_article_id_from_filepath p.1.name) =
                (fun e : DirEntry => get_article_id_from_filepath e.name) ∘
                  Prod.fst from rfl,
              ← List.map_map, List.map_fst_zip _ _ (le_of_eq hslen)]
          have hmaps : ((sortById (glob_suffix "_meta.json" d)).zip
                (sortById (glob_suffix "_raw.txt" d))).map
                  (fun p => get_article_id_from_filepath p.2.name) =
              (sortById (glob_suffix "_raw.txt" d)).map
                (fun e => get_article_id_from_filepath e.name) := by
            rw [show (fun p : DirEntry × DirEntry =>
                get_article_id_from_filepath p.2.name) =
                (fun e : DirEntry => get_article_id_from_filepath e.name) ∘
                  Prod.snd from rfl,
              ← List.map_map, List.map_snd_zip _ _ (le_of_eq hslen.symm)]
          rw [hmapf, hmaps, zip_sizes_iff _ _ hslen]
          simp only [mem_sortById]
          nth_rewrite 2 [hlen]
          rfl
        simp only [validate_dataset, hfd, Bool.false_eq_true, if_false,
          if_neg (not_not_intro hlen)]
        rcases hcp : checkPairs 0
            ((sortById (glob_suffix "_meta.json" d)).zip
              (sortById (glob_suffix "_raw.txt" d))) with _ | _
        · simp only [hcp, Bool.false_eq_true, if_false]
          constructor
          · intro h
            exact absurd h (by simp)
          · rintro ⟨_, _, h1, h2, h3, h4⟩
            have hcp2 := hiff.mpr ⟨h1, h2, h3, h4⟩
            rw [hcp] at hcp2
            exact Bool.noConfusion hcp2
        · simp only [hcp, if_true]
          have hall := hiff.mp hcp
          exact iff_of_true trivial ⟨hne, hlen, hall.1, hall.2.1, hall.2.2.1,
            hall.2.2.2⟩
      · simp only [validate_dataset, hfd, Bool.false_eq_true, if_false,
          if_pos hlen]
        constructor
        · intro h
          exact absurd h (by simp)
        · rintro ⟨_, h, _⟩
          exact absurd h hlen
